import Mathlib

/-!
Shallow embedding of the voice-assistant front-end page (src/unnamed/part_000)
and its permission/connection state machine.

The page keeps two pieces of state: `micPermission : PermissionState`
(line 22, initial value `prompt`) and the livekit room's connection state
(line 21, observed through the agent state in the UI).  Three async handlers
mutate them: `checkMicPermission` (lines 24-37), `requestMicPermission`
(lines 39-50) and `onConnectButtonClicked` (lines 56-75); `onDeviceFailure`
(lines 208-213) reacts to transport device errors.  The browser, the HTTP
endpoint and the livekit SDK are external collaborators and are modelled as
oracles supplied to each call (whether getUserMedia resolves, what the fetch
returns, whether the room join succeeds).
-/

/-- Browser microphone permission state, the values of the DOM
`PermissionState` type used at line 22: `useState<PermissionState>('prompt')`. -/
inductive PermissionState
  | prompt
  | granted
  | denied
  deriving DecidableEq

/-- Connection state of the room as observed by the UI.  The code itself only
ever exhibits `disconnected`, `connecting` and `connected` (livekit room
states); `error` is the extra state named by the specification's state
machine and is included so that statements about it can be expressed.  The
embedding will show the code never enters it. -/
inductive ConnectionState
  | disconnected
  | connecting
  | connected
  | error
  deriving DecidableEq

/-- The JSON body shape of the credential endpoint
(`type ConnectionDetails` imported at line 18: serverUrl, participantToken,
roomName, participantName).  Each field is `Option` because the response body
is cast unchecked at line 71 (`await response.json()` as `ConnectionDetails`),
so any field may be absent in the actual parsed object. -/
structure ConnectionDetails where
  serverUrl : Option String
  participantToken : Option String
  roomName : Option String
  participantName : Option String
  deriving DecidableEq

/-- Outcome of the `fetch` at line 70 followed by `response.json()` at
line 71.  `fetch` resolves for every HTTP status (it rejects only on network
failure), so a status is carried on both non-rejecting constructors;
`badJson` is a body that makes `response.json()` reject. -/
inductive FetchOutcome
  | unreachable
  | badJson (status : Nat)
  | ok (status : Nat) (body : ConnectionDetails)

/-- External-world oracle for one run of `onConnectButtonClicked`:
the build-time environment variable read at line 67, the endpoint's response
as a function of the requested path, the transport outcome of
`room.connect(url, token)` at line 73 for each url/token pair, and the
outcome of `setMicrophoneEnabled(true)` at line 74. -/
structure ConnectEnv where
  envEndpoint : Option String
  fetch : String → FetchOutcome
  joinOk : String → String → Bool
  micEnableOk : Bool

/-- Endpoint path resolution from lines 66-69:
`process.env.NEXT_PUBLIC_CONN_DETAILS_ENDPOINT ?? "/api/connection-details"`
(the `new URL(path, window.location.origin)` wrapper only resolves the path
against the page origin and is abstracted to the path itself). -/
def connDetailsEndpoint (envEndpoint : Option String) : String :=
  envEndpoint.getD "/api/connection-details"

/-- How one run of `onConnectButtonClicked` ended: `ok` means the promise
resolved; the other constructors record which await rejected (the raw
exception propagates, the function has no try/catch and defines no error
classes). -/
inductive ConnectResult
  | ok
  | fetchFailed
  | jsonFailed
  | joinFailed
  | micFailed
  deriving DecidableEq

/-- Observable outcome of one run of `onConnectButtonClicked`: how it ended,
the sequence of new room connection states entered during the run, and the
path that was fetched. -/
structure ConnectOutcome where
  result : ConnectResult
  roomTrace : List ConnectionState
  fetchedUrl : String
  deriving DecidableEq

/-- `onConnectButtonClicked` (lines 56-75), with the external steps resolved
by the oracle.  The code performs no status check and no field validation:
whatever `response.json()` yields is fed to `room.connect`.  SDK boundary
modelling for line 73: `room.connect` called with a missing url or token
rejects without the room ever leaving `disconnected`; with both strings
present the room enters `connecting` and then `connected` on success or
falls back to `disconnected` on a failed join.  A failure of
`setMicrophoneEnabled` at line 74 rejects after the join, leaving the room
`connected`. -/
def onConnectButtonClicked (env : ConnectEnv) : ConnectOutcome :=
  let url := connDetailsEndpoint env.envEndpoint
  match env.fetch url with
  | FetchOutcome.unreachable => ⟨ConnectResult.fetchFailed, [], url⟩
  | FetchOutcome.badJson _ => ⟨ConnectResult.jsonFailed, [], url⟩
  | FetchOutcome.ok _ body =>
    match body.serverUrl, body.participantToken with
    | some u, some t =>
      if env.joinOk u t then
        if env.micEnableOk then
          ⟨ConnectResult.ok, [ConnectionState.connecting, ConnectionState.connected], url⟩
        else
          ⟨ConnectResult.micFailed, [ConnectionState.connecting, ConnectionState.connected], url⟩
      else
        ⟨ConnectResult.joinFailed, [ConnectionState.connecting, ConnectionState.disconnected], url⟩
    | _, _ => ⟨ConnectResult.joinFailed, [], url⟩

/-- Last element of a room-state trace, or the starting state when the trace
is empty: the connection state after a run whose entered states are `tr`. -/
def lastState (c : ConnectionState) (tr : List ConnectionState) : ConnectionState :=
  tr.getLast?.getD c

/-- 2xx test on an HTTP status, used only to state claims about statuses the
code itself never inspects. -/
def is2xx (status : Nat) : Bool :=
  decide (200 ≤ status) && decide (status < 300)

/-- The page's observable state: `micPermission` from line 22, the room's
connection state as rendered by the UI, and the currently shown blocking
`alert`, if any (`none` when no alert is up). -/
structure PageState where
  micPermission : PermissionState
  conn : ConnectionState
  alert : Option String
  deriving DecidableEq

/-- The alert text at line 48, shown by the catch of `requestMicPermission`. -/
def micDeniedAlert : String :=
  "Microphone access was denied. Please check your browser settings."

/-- The alert text at lines 210-212, shown by `onDeviceFailure`. -/
def deviceFailureAlert : String :=
  "Error acquiring camera or microphone permissions. Please make sure you grant the necessary permissions in your browser and reload the tab"

/-- Marks every track of a media stream stopped, as in
`stream.getTracks().forEach(track => track.stop())` (lines 28 and 42).  A
stream is represented by the liveness flags of its tracks. -/
def stopTracks (ts : List Bool) : List Bool :=
  ts.map (fun _ => false)

/-- `checkMicPermission` (lines 24-37).  `media` is the getUserMedia oracle:
`some ts` when the probe resolves with a stream of tracks `ts`, `none` when
it rejects.  Returns the updated page state, the handler's boolean result,
and the final liveness flags of the acquired tracks (all stopped on
success; no tracks acquired on failure).  The catch sets `prompt`, never
`denied`, and rethrows nothing. -/
def checkMicPermission (media : Option (List Bool)) (s : PageState) :
    PageState × Bool × List Bool :=
  match media with
  | some ts => ({ s with micPermission := PermissionState.granted }, true, stopTracks ts)
  | none => ({ s with micPermission := PermissionState.prompt }, false, [])

/-- `requestMicPermission` (lines 39-50).  On a resolved getUserMedia the
handler sets `micPermission := granted` (line 43) and then awaits
`onConnectButtonClicked()` (line 44) — still inside the try, so a rejection
of the connect sequence falls into the same catch as a rejected getUserMedia:
`micPermission := denied` (line 47) and the microphone-denied alert
(line 48). -/
def requestMicPermission (media : Option (List Bool)) (cenv : ConnectEnv)
    (s : PageState) : PageState :=
  match media with
  | some _ =>
    let s1 := { s with micPermission := PermissionState.granted }
    let out := onConnectButtonClicked cenv
    match out.result with
    | ConnectResult.ok => { s1 with conn := lastState s1.conn out.roomTrace }
    | _ =>
      { s1 with
        micPermission := PermissionState.denied,
        conn := lastState s1.conn out.roomTrace,
        alert := some micDeniedAlert }
  | none =>
    { s with micPermission := PermissionState.denied, alert := some micDeniedAlert }

/-- The user-visible and transport events the page reacts to after mount.
`requestMic` is a click on the "Request Microphone Access" button
(line 131), carrying the getUserMedia outcome and the connect oracle;
`startConversation` is a click on "Start a conversation" (line 138);
`leave` is the `DisconnectButton` (lines 197-199); `deviceFailure` is a
`RoomEvent.MediaDevicesError` delivered to `onDeviceFailure` (line 78);
`dismissAlert` closes the currently shown blocking alert. -/
inductive PageAction
  | requestMic (media : Option (List Bool)) (cenv : ConnectEnv)
  | startConversation (cenv : ConnectEnv)
  | leave
  | deviceFailure
  | dismissAlert

/-- One page step.  A click on "Start a conversation" runs
`onConnectButtonClicked` with no handler around it (line 138), so a
rejection there changes no page state beyond what the room itself did; the
`DisconnectButton` tears the room down to `disconnected`; `onDeviceFailure`
only logs and alerts (lines 208-213), it never touches the room or the
permission state. -/
def step (s : PageState) : PageAction → PageState
  | PageAction.requestMic media cenv => requestMicPermission media cenv s
  | PageAction.startConversation cenv =>
    { s with conn := lastState s.conn (onConnectButtonClicked cenv).roomTrace }
  | PageAction.leave => { s with conn := ConnectionState.disconnected }
  | PageAction.deviceFailure => { s with alert := some deviceFailureAlert }
  | PageAction.dismissAlert => { s with alert := none }

/-- Which actions the page makes available in a given state, from the render
logic: the permission-request button renders only inside the
`agentState === "disconnected"` block and only when
`micPermission !== 'granted'` (lines 110 and 128); the start button in the
same block when `micPermission === 'granted'` (lines 128 and 136); the
`DisconnectButton` only when the session is live (line 180).  A blocking
`alert` suspends all clicks until dismissed; transport device errors can be
delivered at any time. -/
def enabled (s : PageState) : PageAction → Bool
  | PageAction.requestMic _ _ =>
    decide (s.conn = ConnectionState.disconnected) &&
      !(decide (s.micPermission = PermissionState.granted)) && s.alert.isNone
  | PageAction.startConversation _ =>
    decide (s.conn = ConnectionState.disconnected) &&
      decide (s.micPermission = PermissionState.granted) && s.alert.isNone
  | PageAction.leave => decide (s.conn = ConnectionState.connected) && s.alert.isNone
  | PageAction.deviceFailure => true
  | PageAction.dismissAlert => s.alert.isSome

/-- A sequence of actions is valid from `s` when each action is enabled in
the state it is taken from. -/
def validFrom (s : PageState) : List PageAction → Bool
  | [] => true
  | a :: rest => enabled s a && validFrom (step s a) rest

/-- State after running a sequence of actions from `s`. -/
def run (s : PageState) : List PageAction → PageState
  | [] => s
  | a :: rest => run (step s a) rest

/-- Page state right after mount: `micPermission` starts at `'prompt'`
(line 22) and the mount effect (lines 52-54) runs `checkMicPermission` with
the probe outcome `media`; the room starts disconnected and no alert is up. -/
def initState (media : Option (List Bool)) : PageState :=
  (checkMicPermission media
    ⟨PermissionState.prompt, ConnectionState.disconnected, none⟩).1

/-- The new room connection states entered while an action runs: the room
trace of the connect sequence for the two actions that may start one, the
teardown to `disconnected` for `leave`, nothing otherwise. -/
def connTrace : PageAction → List ConnectionState
  | PageAction.requestMic (some _) cenv => (onConnectButtonClicked cenv).roomTrace
  | PageAction.requestMic none _ => []
  | PageAction.startConversation cenv => (onConnectButtonClicked cenv).roomTrace
  | PageAction.leave => [ConnectionState.disconnected]
  | PageAction.deviceFailure => []
  | PageAction.dismissAlert => []

/-- Concatenated room-state trace of an action sequence. -/
def traceFrom (s : PageState) : List PageAction → List ConnectionState
  | [] => []
  | a :: rest => connTrace a ++ traceFrom (step s a) rest

/-- Every connection state the page passes through on a run: the initial one
followed by each newly entered state. -/
def fullTrace (s : PageState) (acts : List PageAction) : List ConnectionState :=
  s.conn :: traceFrom s acts

/-- `chain R c tr` holds when each consecutive pair along `c :: tr` is an
`R`-edge. -/
def chain (R : ConnectionState → ConnectionState → Bool) :
    ConnectionState → List ConnectionState → Bool
  | _, [] => true
  | c, d :: rest => R c d && chain R d rest

/-- The connection-state transitions the code actually performs: entering
`connecting` from `disconnected` when a join starts, `connecting` to
`connected` on success or back to `disconnected` on failure, and
`connected` to `disconnected` on teardown. -/
def codeEdge : ConnectionState → ConnectionState → Bool
  | ConnectionState.disconnected, ConnectionState.connecting => true
  | ConnectionState.connecting, ConnectionState.connected => true
  | ConnectionState.connecting, ConnectionState.disconnected => true
  | ConnectionState.connected, ConnectionState.disconnected => true
  | _, _ => false

/-- Modelled from the spec: the edge set claimed by the specification's
state machine, for comparison with `codeEdge` — `disconnected→connecting`,
`connecting→connected`, `disconnected→error` and `connected→disconnected`,
with no edge leaving `error`. -/
def specEdge : ConnectionState → ConnectionState → Bool
  | ConnectionState.disconnected, ConnectionState.connecting => true
  | ConnectionState.connecting, ConnectionState.connected => true
  | ConnectionState.disconnected, ConnectionState.error => true
  | ConnectionState.connected, ConnectionState.disconnected => true
  | _, _ => false

/-- True for the actions that invoke the connect sequence: a permission
request whose grant succeeded (line 44) and a click on "Start a
conversation" (line 138). -/
def issuesConnect : PageAction → Bool
  | PageAction.requestMic (some _) _ => true
  | PageAction.startConversation _ => true
  | _ => false

/-- The value `micPermission` has been set to at the moment
`onConnectButtonClicked` is invoked within the action: inside
`requestMicPermission` the call at line 44 follows
`setMicPermission('granted')` at line 43, so there it is `granted`; for the
start-conversation click it is the page's current value. -/
def permissionAtConnectCall (s : PageState) : PageAction → PermissionState
  | PageAction.requestMic _ _ => PermissionState.granted
  | _ => s.micPermission

/-- A credential response with all four fields present and plausible values,
issued with HTTP status 500: used to exercise the absence of status
validation in `onConnectButtonClicked`. -/
def goodBody : ConnectionDetails :=
  ⟨some "wss://x", some "t", some "r", some "p"⟩

/-- Oracle where the endpoint answers 500 with a well-formed body and the
transport would accept the credentials. -/
def cenv500 : ConnectEnv :=
  ⟨none, fun _ => FetchOutcome.ok 500 goodBody, fun _ _ => true, true⟩

/-- Oracle where everything succeeds: 200 response with a good body,
accepting transport, microphone enable succeeds. -/
def cenvOk : ConnectEnv :=
  ⟨none, fun _ => FetchOutcome.ok 200 goodBody, fun _ _ => true, true⟩

/-- Oracle where the credentials are fetched but the room join fails. -/
def cenvJoinFail : ConnectEnv :=
  ⟨none, fun _ => FetchOutcome.ok 200 goodBody, fun _ _ => false, true⟩

/-- Oracle where the credential endpoint is unreachable. -/
def cenvUnreachable : ConnectEnv :=
  ⟨none, fun _ => FetchOutcome.unreachable, fun _ _ => true, true⟩

/-- A 200 response whose body lacks `participantToken`. -/
def bodyNoToken : ConnectionDetails :=
  ⟨some "wss://x", none, some "r", some "p"⟩

/-- Oracle where the endpoint answers 200 but the body has no
`participantToken`. -/
def cenvNoToken : ConnectEnv :=
  ⟨none, fun _ => FetchOutcome.ok 200 bodyNoToken, fun _ _ => true, true⟩

/-- A credential response is missing or malformed when the fetch rejects,
the body fails to parse, or the parsed body lacks `serverUrl` or
`participantToken` (the two fields the connect call consumes). -/
def credentialResponseBad : FetchOutcome → Bool
  | FetchOutcome.unreachable => true
  | FetchOutcome.badJson _ => true
  | FetchOutcome.ok _ body => body.serverUrl.isNone || body.participantToken.isNone

/-- Splitting a valid action sequence: the suffix is valid from the state the
prefix runs to. -/
theorem validFrom_append (xs ys : List PageAction) (s : PageState)
    (h : validFrom s (xs ++ ys) = true) : validFrom (run s xs) ys = true := by
  induction xs generalizing s with
  | nil => simpa [run] using h
  | cons a rest ih =>
    simp only [List.cons_append, validFrom, Bool.and_eq_true] at h
    simpa [run] using ih (step s a) h.2

/-- The final state reached by a nonempty trace ignores the starting state. -/
theorem lastState_cons (c d : ConnectionState) (rest : List ConnectionState) :
    lastState c (d :: rest) = lastState d rest := by
  cases rest with
  | nil => rfl
  | cons e tl =>
    simp only [lastState, List.getLast?_cons_cons]
    cases h : (e :: tl).getLast? with
    | none => simp at h
    | some x => rfl

/-- A chain over a concatenation: the first part from the start, the second
from where the first part ends. -/
theorem chain_append (R : ConnectionState → ConnectionState → Bool)
    (c : ConnectionState) (xs ys : List ConnectionState) :
    chain R c (xs ++ ys) = (chain R c xs && chain R (lastState c xs) ys) := by
  induction xs generalizing c with
  | nil => simp [chain, lastState]
  | cons d rest ih =>
    simp [chain, ih, lastState_cons, Bool.and_assoc]

/-- The room trace of a connect run has one of three shapes: untouched, a
successful join, or a failed join falling back to `disconnected`. -/
theorem roomTrace_cases (cenv : ConnectEnv) :
    (onConnectButtonClicked cenv).roomTrace = [] ∨
    (onConnectButtonClicked cenv).roomTrace =
      [ConnectionState.connecting, ConnectionState.connected] ∨
    (onConnectButtonClicked cenv).roomTrace =
      [ConnectionState.connecting, ConnectionState.disconnected] := by
  rcases hf : cenv.fetch (connDetailsEndpoint cenv.envEndpoint) with _ | status | ⟨status, body⟩
  · simp [onConnectButtonClicked, hf]
  · simp [onConnectButtonClicked, hf]
  · rcases hu : body.serverUrl with _ | u
    · simp [onConnectButtonClicked, hf, hu]
    · rcases ht : body.participantToken with _ | t
      · simp [onConnectButtonClicked, hf, hu, ht]
      · by_cases hj : cenv.joinOk u t = true
        · by_cases hm : cenv.micEnableOk = true
          · simp [onConnectButtonClicked, hf, hu, ht, hj, hm]
          · simp [onConnectButtonClicked, hf, hu, ht, hj, hm]
        · simp [onConnectButtonClicked, hf, hu, ht, hj]

/-- The connection state after a step is the last state of the step's room
trace. -/
theorem step_conn (s : PageState) (a : PageAction) :
    (step s a).conn = lastState s.conn (connTrace a) := by
  cases a with
  | requestMic media cenv =>
    cases media with
    | none => simp [step, requestMicPermission, connTrace, lastState]
    | some ts =>
      simp only [step, requestMicPermission, connTrace]
      cases (onConnectButtonClicked cenv).result <;> rfl
  | startConversation cenv => rfl
  | leave => simp [step, connTrace, lastState]
  | deviceFailure => simp [step, connTrace, lastState]
  | dismissAlert => simp [step, connTrace, lastState]

/-- Every single enabled action only moves the connection state along edges
the code performs. -/
theorem connTrace_chain (s : PageState) (a : PageAction)
    (h : enabled s a = true) : chain codeEdge s.conn (connTrace a) = true := by
  cases a with
  | requestMic media cenv =>
    cases media with
    | none => simp [connTrace, chain]
    | some ts =>
      simp only [enabled, Bool.and_eq_true, decide_eq_true_eq] at h
      rcases roomTrace_cases cenv with ht | ht | ht <;>
        simp [connTrace, ht, chain, h.1.1, codeEdge]
  | startConversation cenv =>
    simp only [enabled, Bool.and_eq_true, decide_eq_true_eq] at h
    rcases roomTrace_cases cenv with ht | ht | ht <;>
      simp [connTrace, ht, chain, h.1.1, codeEdge]
  | leave =>
    simp only [enabled, Bool.and_eq_true, decide_eq_true_eq] at h
    simp [connTrace, chain, h.1, codeEdge]
  | deviceFailure => simp [connTrace, chain]
  | dismissAlert => simp [connTrace, chain]

/-- Along any valid action sequence the room only moves along code edges. -/
theorem traceFrom_chain (acts : List PageAction) (s : PageState)
    (h : validFrom s acts = true) :
    chain codeEdge s.conn (traceFrom s acts) = true := by
  induction acts generalizing s with
  | nil => simp [traceFrom, chain]
  | cons a rest ih =>
    simp only [validFrom, Bool.and_eq_true] at h
    rw [traceFrom, chain_append, Bool.and_eq_true, ← step_conn]
    exact ⟨connTrace_chain s a h.1, ih (step s a) h.2⟩

/-- No action ever enters the `error` state. -/
theorem connTrace_no_error (a : PageAction) :
    ConnectionState.error ∉ connTrace a := by
  cases a with
  | requestMic media cenv =>
    cases media with
    | none => simp [connTrace]
    | some ts =>
      rcases roomTrace_cases cenv with ht | ht | ht <;> simp [connTrace, ht]
  | startConversation cenv =>
    rcases roomTrace_cases cenv with ht | ht | ht <;> simp [connTrace, ht]
  | leave => simp [connTrace]
  | deviceFailure => simp [connTrace]
  | dismissAlert => simp [connTrace]

/-- No run of the page ever enters the `error` state. -/
theorem traceFrom_no_error (acts : List PageAction) (s : PageState) :
    ConnectionState.error ∉ traceFrom s acts := by
  induction acts generalizing s with
  | nil => simp [traceFrom]
  | cons a rest ih =>
    simp only [traceFrom, List.mem_append]
    rintro (hmem | hmem)
    · exact connTrace_no_error a hmem
    · exact ih (step s a) hmem

/-- C1 (counterexample): `onConnectButtonClicked` performs no status
validation — the endpoint answering HTTP 500 with a well-formed body leads
to a successful run ending `connected`, not to a credential-fetch error and
an error state as the claim requires for every non-2xx response. -/
theorem non2xx_response_still_connects :
    is2xx 500 = false ∧
    (onConnectButtonClicked cenv500).result = ConnectResult.ok ∧
    lastState ConnectionState.disconnected (onConnectButtonClicked cenv500).roomTrace =
      ConnectionState.connected :=
  ⟨rfl, rfl, rfl⟩

/-- C1 (amended): when the credential endpoint is unreachable, the body
fails to parse, or the parsed body lacks `serverUrl` or `participantToken`,
the connect run does not resolve successfully (the raw exception
propagates, unclassified) and the room ends `disconnected` — never
`connected`, but also never in a distinguished `error` state. -/
theorem bad_credential_response_never_connects (cenv : ConnectEnv)
    (h : credentialResponseBad (cenv.fetch (connDetailsEndpoint cenv.envEndpoint)) = true) :
    (onConnectButtonClicked cenv).result ≠ ConnectResult.ok ∧
    lastState ConnectionState.disconnected (onConnectButtonClicked cenv).roomTrace =
      ConnectionState.disconnected := by
  rcases hf : cenv.fetch (connDetailsEndpoint cenv.envEndpoint) with _ | status | ⟨status, body⟩
  · simp [onConnectButtonClicked, hf, lastState]
  · simp [onConnectButtonClicked, hf, lastState]
  · rw [hf] at h
    simp only [credentialResponseBad, Bool.or_eq_true, Option.isNone_iff_eq_none] at h
    rcases hu : body.serverUrl with _ | u
    · simp [onConnectButtonClicked, hf, hu, lastState]
    · rcases ht : body.participantToken with _ | t
      · simp [onConnectButtonClicked, hf, hu, ht, lastState]
      · rcases h with h | h
        · rw [hu] at h
          exact absurd h (by simp)
        · rw [ht] at h
          exact absurd h (by simp)

/-- C1 (witness): a 200 response missing `participantToken` is a malformed
credential response, and the amended theorem applies to it. -/
theorem bad_credential_response_never_connects_witness :
    credentialResponseBad (cenvNoToken.fetch (connDetailsEndpoint cenvNoToken.envEndpoint)) =
      true ∧
    ((onConnectButtonClicked cenvNoToken).result ≠ ConnectResult.ok ∧
      lastState ConnectionState.disconnected (onConnectButtonClicked cenvNoToken).roomTrace =
        ConnectionState.disconnected) :=
  ⟨by decide, bad_credential_response_never_connects cenvNoToken (by decide)⟩

/-- C2: along every valid action sequence from mount, whenever an action
invokes the connect sequence, the connection state at that point is
`disconnected` and the permission value in effect at the connect call is
`granted`. -/
theorem connect_only_when_granted_and_disconnected (media : Option (List Bool))
    (pre post : List PageAction) (a : PageAction)
    (hv : validFrom (initState media) (pre ++ a :: post) = true)
    (hc : issuesConnect a = true) :
    (run (initState media) pre).conn = ConnectionState.disconnected ∧
    permissionAtConnectCall (run (initState media) pre) a = PermissionState.granted := by
  have hs := validFrom_append pre (a :: post) (initState media) hv
  simp only [validFrom, Bool.and_eq_true] at hs
  have he := hs.1
  cases a with
  | requestMic m cenv =>
    cases m with
    | none => simp [issuesConnect] at hc
    | some ts =>
      simp only [enabled, Bool.and_eq_true, decide_eq_true_eq] at he
      exact ⟨he.1.1, rfl⟩
  | startConversation cenv =>
    simp only [enabled, Bool.and_eq_true, decide_eq_true_eq] at he
    exact ⟨he.1.1, he.1.2⟩
  | leave => simp [issuesConnect] at hc
  | deviceFailure => simp [issuesConnect] at hc
  | dismissAlert => simp [issuesConnect] at hc

/-- C2 (witness): after a granting mount probe, clicking "Start a
conversation" straight away is a valid sequence that issues a connect, and
the invariant holds at that point. -/
theorem connect_only_when_granted_and_disconnected_witness :
    validFrom (initState (some [])) ([] ++ PageAction.startConversation cenvOk :: []) = true ∧
    ((run (initState (some [])) []).conn = ConnectionState.disconnected ∧
      permissionAtConnectCall (run (initState (some [])) [])
        (PageAction.startConversation cenvOk) = PermissionState.granted) :=
  ⟨by decide,
    connect_only_when_granted_and_disconnected (some []) [] []
      (PageAction.startConversation cenvOk) (by decide) (by decide)⟩

/-- C3: `requestMicPermission` on a resolved grant sets the permission to
`granted` and immediately runs the connect sequence (the resulting
connection state is exactly the connect run's outcome, and when that run
succeeds the permission stays `granted`); on a rejected grant it sets
`denied`, raises the dismissable microphone-denied alert, leaves the
connection state untouched and attempts nothing further. -/
theorem requestMicPermission_grant_then_connect (s : PageState) (cenv : ConnectEnv)
    (ts : List Bool) :
    (requestMicPermission (some ts) cenv s).conn =
      lastState s.conn (onConnectButtonClicked cenv).roomTrace ∧
    ((onConnectButtonClicked cenv).result = ConnectResult.ok →
      (requestMicPermission (some ts) cenv s).micPermission = PermissionState.granted) ∧
    (requestMicPermission none cenv s).micPermission = PermissionState.denied ∧
    (requestMicPermission none cenv s).alert = some micDeniedAlert ∧
    (requestMicPermission none cenv s).conn = s.conn ∧
    (step (requestMicPermission none cenv s) PageAction.dismissAlert).alert = none := by
  refine ⟨?_, ?_, rfl, rfl, rfl, rfl⟩
  · simp only [requestMicPermission]
    rcases h : (onConnectButtonClicked cenv).result <;> simp [h]
  · intro h
    simp [requestMicPermission, h]

/-- C3 (witness): with an all-succeeding oracle, a granted request connects
and the permission ends `granted`. -/
theorem requestMicPermission_grant_then_connect_witness :
    (onConnectButtonClicked cenvOk).result = ConnectResult.ok ∧
    (requestMicPermission (some [true]) cenvOk (initState none)).micPermission =
      PermissionState.granted :=
  ⟨by decide,
    (requestMicPermission_grant_then_connect (initState none) cenvOk [true]).2.1 (by decide)⟩

/-- C4: `checkMicPermission` never sets `denied` and never raises a
user-visible error: on a resolved probe it sets `granted` and every
acquired track is stopped; on a rejected probe it sets `prompt`; in both
cases the connection state and any alert are untouched. -/
theorem checkMicPermission_never_denies (media : Option (List Bool)) (s : PageState) :
    (checkMicPermission media s).1.micPermission ≠ PermissionState.denied ∧
    (checkMicPermission media s).1.conn = s.conn ∧
    (checkMicPermission media s).1.alert = s.alert ∧
    (∀ ts, media = some ts →
      (checkMicPermission media s).1.micPermission = PermissionState.granted ∧
      ∀ b ∈ (checkMicPermission media s).2.2, b = false) ∧
    (media = none →
      (checkMicPermission media s).1.micPermission = PermissionState.prompt) := by
  cases media with
  | some ts =>
    refine ⟨by simp [checkMicPermission], rfl, rfl, ?_, by simp⟩
    intro ts2 hts
    refine ⟨rfl, ?_⟩
    intro b hb
    simp only [checkMicPermission, stopTracks, List.mem_map] at hb
    obtain ⟨a, _, hba⟩ := hb
    exact hba.symm
  | none =>
    refine ⟨by simp [checkMicPermission], rfl, rfl, ?_, fun _ => rfl⟩
    intro ts hts
    exact absurd hts (by simp)

/-- C4 (witness): a resolved probe on a one-track stream yields `granted`
with the track stopped. -/
theorem checkMicPermission_never_denies_witness :
    (some [true] : Option (List Bool)) = some [true] ∧
    ((checkMicPermission (some [true]) (initState none)).1.micPermission =
        PermissionState.granted ∧
      ∀ b ∈ (checkMicPermission (some [true]) (initState none)).2.2, b = false) :=
  ⟨rfl, (checkMicPermission_never_denies (some [true]) (initState none)).2.2.2.1 [true] rfl⟩

/-- C5: when the grant inside `requestMicPermission` resolves but the
connect sequence awaited inside the same try rejects, the shared catch sets
the permission to `denied` and shows the microphone-denied alert, even
though the microphone permission was actually granted. -/
theorem connect_failure_marks_permission_denied (s : PageState) (cenv : ConnectEnv)
    (ts : List Bool) (h : (onConnectButtonClicked cenv).result ≠ ConnectResult.ok) :
    (requestMicPermission (some ts) cenv s).micPermission = PermissionState.denied ∧
    (requestMicPermission (some ts) cenv s).alert = some micDeniedAlert := by
  simp only [requestMicPermission]
  rcases hr : (onConnectButtonClicked cenv).result
  · exact absurd hr h
  all_goals simp [hr]

/-- C5 (witness): an unreachable credential endpoint after a successful
grant ends with `denied` and the microphone-denied alert. -/
theorem connect_failure_marks_permission_denied_witness :
    (onConnectButtonClicked cenvUnreachable).result ≠ ConnectResult.ok ∧
    ((requestMicPermission (some [true]) cenvUnreachable (initState (some []))).micPermission =
        PermissionState.denied ∧
      (requestMicPermission (some [true]) cenvUnreachable (initState (some []))).alert =
        some micDeniedAlert) :=
  ⟨by decide,
    connect_failure_marks_permission_denied (initState (some [])) cenvUnreachable [true]
      (by decide)⟩

/-- C6: a failing connect run started on its own by the
"Start a conversation" click leaves the permission state (and any shown
alert) unchanged — the rejection is unhandled and touches nothing. -/
theorem connect_alone_preserves_permission (s : PageState) (cenv : ConnectEnv)
    (h : (onConnectButtonClicked cenv).result ≠ ConnectResult.ok) :
    (step s (PageAction.startConversation cenv)).micPermission = s.micPermission ∧
    (step s (PageAction.startConversation cenv)).alert = s.alert :=
  ⟨rfl, rfl⟩

/-- C6 (witness): a connect with an unreachable endpoint, clicked from the
post-mount granted state, changes neither the permission nor the alert. -/
theorem connect_alone_preserves_permission_witness :
    (onConnectButtonClicked cenvUnreachable).result ≠ ConnectResult.ok ∧
    ((step (initState (some [])) (PageAction.startConversation cenvUnreachable)).micPermission =
        (initState (some [])).micPermission ∧
      (step (initState (some [])) (PageAction.startConversation cenvUnreachable)).alert =
        (initState (some [])).alert) :=
  ⟨by decide,
    connect_alone_preserves_permission (initState (some [])) cenvUnreachable (by decide)⟩

/-- C7: the connect sequence fetches exactly the address resolved from the
single optional environment variable, which defaults to
"/api/connection-details" when absent and is the variable's value when
present. -/
theorem endpoint_resolution_default (cenv : ConnectEnv) (p : String) :
    (onConnectButtonClicked cenv).fetchedUrl = connDetailsEndpoint cenv.envEndpoint ∧
    connDetailsEndpoint none = "/api/connection-details" ∧
    connDetailsEndpoint (some p) = p := by
  refine ⟨?_, rfl, rfl⟩
  rcases hf : cenv.fetch (connDetailsEndpoint cenv.envEndpoint) with _ | status | ⟨status, body⟩
  · simp [onConnectButtonClicked, hf]
  · simp [onConnectButtonClicked, hf]
  · rcases hu : body.serverUrl with _ | u
    · simp [onConnectButtonClicked, hf, hu]
    · rcases ht : body.participantToken with _ | t
      · simp [onConnectButtonClicked, hf, hu, ht]
      · by_cases hj : cenv.joinOk u t = true
        · by_cases hm : cenv.micEnableOk = true
          · simp [onConnectButtonClicked, hf, hu, ht, hj, hm]
          · simp [onConnectButtonClicked, hf, hu, ht, hj, hm]
        · simp [onConnectButtonClicked, hf, hu, ht, hj]

/-- C8: a transport device-error notification makes `onDeviceFailure` show
its blocking alert and changes nothing else: the connection state (in
particular a connected session) and the permission state are untouched, so
the room is not disconnected. -/
theorem device_failure_alerts_without_disconnect (s : PageState) :
    (step s PageAction.deviceFailure).alert = some deviceFailureAlert ∧
    (step s PageAction.deviceFailure).conn = s.conn ∧
    (step s PageAction.deviceFailure).micPermission = s.micPermission :=
  ⟨rfl, rfl, rfl⟩

/-- C9: disconnecting is idempotent — a second teardown equals the first,
and tearing down an already-disconnected page changes nothing at all (and,
the step being total, raises no error). -/
theorem disconnect_idempotent (s : PageState) :
    step (step s PageAction.leave) PageAction.leave = step s PageAction.leave ∧
    (s.conn = ConnectionState.disconnected → step s PageAction.leave = s) := by
  constructor
  · rfl
  · intro h
    cases s with
    | mk mp c al =>
      cases h
      rfl

/-- C9 (witness): from the freshly mounted, disconnected page a teardown is
a no-op. -/
theorem disconnect_idempotent_witness :
    (initState none).conn = ConnectionState.disconnected ∧
    step (initState none) PageAction.leave = initState none :=
  ⟨rfl, (disconnect_idempotent (initState none)).2 rfl⟩

/-- C10 (counterexample): a valid run in which a join fails moves the
connection state `connecting → disconnected`, an edge outside the
specification's state machine (which instead expects failures to land in
`error`); so the claim's edge set does not cover the code's transitions. -/
theorem failed_join_leaves_spec_edges :
    validFrom (initState (some [true])) [PageAction.startConversation cenvJoinFail] = true ∧
    chain specEdge (initState (some [true])).conn
      (traceFrom (initState (some [true])) [PageAction.startConversation cenvJoinFail]) =
      false :=
  ⟨by decide, by decide⟩

/-- C10 (amended): along every valid action sequence from mount the
connection state moves only along the edges the code performs —
`disconnected→connecting`, `connecting→connected`,
`connecting→disconnected` on a failed join, `connected→disconnected` on
teardown — never skipping `connecting` on the way to `connected`, and the
`error` state of the specification's machine is never entered at all. -/
theorem connectionState_follows_code_edges (media : Option (List Bool))
    (acts : List PageAction) (h : validFrom (initState media) acts = true) :
    chain codeEdge (initState media).conn (traceFrom (initState media) acts) = true ∧
    ConnectionState.error ∉ fullTrace (initState media) acts := by
  refine ⟨traceFrom_chain acts (initState media) h, ?_⟩
  intro hmem
  rcases List.mem_cons.mp hmem with he | he
  · cases media <;> simp [initState, checkMicPermission] at he
  · exact traceFrom_no_error acts (initState media) he

/-- C10 (witness): the successful mount-then-connect run is valid and its
trace follows the code's edges without ever meeting `error`. -/
theorem connectionState_follows_code_edges_witness :
    validFrom (initState (some [])) [PageAction.startConversation cenvOk] = true ∧
    (chain codeEdge (initState (some [])).conn
        (traceFrom (initState (some [])) [PageAction.startConversation cenvOk]) = true ∧
      ConnectionState.error ∉ fullTrace (initState (some [])) [PageAction.startConversation cenvOk]) :=
  ⟨by decide,
    connectionState_follows_code_edges (some []) [PageAction.startConversation cenvOk]
      (by decide)⟩
